import Mathlib

/-!
Shallow embedding of the Unit09 deployment-state and access-control core
(contracts/programs/src): lifecycle state machine, authority registry,
repository aggregation, and the two guarded instruction handlers.

Modelling conventions:
* `u64` / `u32` values are `Nat` with explicit bounds (`U64_MAX`, `U32_MAX`);
  checked arithmetic is `checked_add_u64` / `checked_add_u32` / `checked_sub_u32`.
* `Pubkey` is modelled as `Nat`; `Pubkey::default()` is `0`.
* A `&self` guard returns `Except Unit09Error Unit`.
* A `&mut self` method returns `St × Except Unit09Error Unit`: the first
  component is the state of `self` when the method returns, whether or not it
  returns an error, exactly mirroring Rust in-place mutation followed by an
  early `return err!(..)`.
* The crate constants (`MAX_LOC_PER_OBSERVATION`, `DEFAULT_MAX_MODULES_PER_REPO`,
  string length caps, ...) live in `constants.rs`, which is not part of the
  sources; they are carried as fields of a `Consts` parameter, so every theorem
  holds for every possible value of those constants.
-/

namespace Unit09

/-- Largest value of a Rust `u64`. -/
def U64_MAX : Nat := 2 ^ 64 - 1

/-- Largest value of a Rust `u32`. -/
def U32_MAX : Nat := 2 ^ 32 - 1

/-- Rust `u64::checked_add`. -/
def checked_add_u64 (a b : Nat) : Option Nat :=
  if a + b ≤ U64_MAX then some (a + b) else none

/-- Rust `u32::checked_add`. -/
def checked_add_u32 (a b : Nat) : Option Nat :=
  if a + b ≤ U32_MAX then some (a + b) else none

/-- Rust `u32::checked_sub`. -/
def checked_sub_u32 (a b : Nat) : Option Nat :=
  if b ≤ a then some (a - b) else none

/-- Error codes of `Unit09Error` that appear in the embedded sources.
`configInactive` does not appear in the given sources (`errors.rs` is absent);
it stands for the error returned by `Config::assert_active`, modelled from the
spec (§7 lists a dedicated validation/lifecycle failure for an inactive
deployment). -/
inductive Unit09Error where
  | invalidAuthority
  | repoInactive
  | observationNotAllowed
  | counterOverflow
  | repoModuleLimitReached
  | observationDataTooLarge
  | repoObservationLimitReached
  | stringEmpty
  | stringTooLong
  | invalidUrl
  | invalidLifecycleState
  | migrationRequired
  | migrationAlreadyApplied
  | authorityRoleNotAllowed
  | invalidAdmin
  | invalidFeeBps
  | valueOutOfRange
  | internalError
  | metadataInvalid
  | invalidForkOwner
  | configInactive
deriving DecidableEq, Repr

/-- Unknown crate-level constants from `constants.rs` (absent from the given
sources); all definitions are parametric in them. -/
structure Consts where
  MAX_LOC_PER_OBSERVATION : Nat
  MAX_FILES_PER_OBSERVATION : Nat
  SOFT_MAX_OBSERVATIONS_PER_REPO : Nat
  DEFAULT_MAX_MODULES_PER_REPO : Nat
  MAX_NAME_LEN : Nat
  MAX_URL_LEN : Nat
  MAX_REPO_TAGS_LEN : Nat
  CURRENT_SCHEMA_VERSION : Nat
  MAX_DESCRIPTION_LEN : Nat
  MAX_META_TAGS_LEN : Nat
  MAX_META_URL_LEN : Nat
  MAX_ICON_URI_LEN : Nat
  MAX_EXTRA_JSON_LEN : Nat
  MAX_LABEL_LEN : Nat
  MAX_METADATA_URI_LEN : Nat
  MAX_FORK_TAGS_LEN : Nat
deriving Repr

-- ===========================================================================
-- Lifecycle (state/lifecycle.rs)
-- ===========================================================================

/-- `LifecyclePhase` from `state/lifecycle.rs`. -/
inductive LifecyclePhase where
  | bootstrapping
  | operational
  | maintenance
  | frozen
  | migration
  | sunset
deriving DecidableEq, Repr

namespace LifecyclePhase

/-- `LifecyclePhase::from_u8`. -/
def from_u8 (value : Nat) : Option LifecyclePhase :=
  match value with
  | 0 => some .bootstrapping
  | 1 => some .operational
  | 2 => some .maintenance
  | 3 => some .frozen
  | 4 => some .migration
  | 5 => some .sunset
  | _ => none

/-- `LifecyclePhase::as_u8`. -/
def as_u8 : LifecyclePhase → Nat
  | .bootstrapping => 0
  | .operational => 1
  | .maintenance => 2
  | .frozen => 3
  | .migration => 4
  | .sunset => 5

/-- `LifecyclePhase::is_write_restricted`. -/
def is_write_restricted : LifecyclePhase → Bool
  | .frozen => true
  | .migration => true
  | .sunset => true
  | _ => false

/-- `LifecyclePhase::is_read_only`. -/
def is_read_only : LifecyclePhase → Bool
  | .frozen => true
  | .sunset => true
  | _ => false

end LifecyclePhase

/-- `Lifecycle` account from `state/lifecycle.rs`.  `phase` is the raw stored
byte; `note_ref` (32 opaque bytes) and `reserved` are modelled as `Nat`. -/
structure Lifecycle where
  phase : Nat
  global_freeze : Bool
  migration_required : Bool
  migration_in_progress : Bool
  phase_changed_at : Int
  migration_state_changed_at : Int
  note_ref : Nat
  created_at : Int
  updated_at : Int
  schema_version : Nat
  bump : Nat
  reserved : Nat
deriving DecidableEq, Repr

namespace Lifecycle

/-- `Lifecycle::init`. -/
def init (self : Lifecycle) (c : Consts) (bump : Nat) (clock : Int)
    (note_ref : Nat) : Lifecycle × Except Unit09Error Unit :=
  ({ self with
      phase := LifecyclePhase.bootstrapping.as_u8
      global_freeze := false
      migration_required := false
      migration_in_progress := false
      phase_changed_at := clock
      migration_state_changed_at := 0
      note_ref := note_ref
      created_at := clock
      updated_at := clock
      schema_version := c.CURRENT_SCHEMA_VERSION
      bump := bump
      reserved := 0 }, .ok ())

/-- `Lifecycle::set_phase`. -/
def set_phase (self : Lifecycle) (new_phase : LifecyclePhase) (clock : Int) :
    Lifecycle × Except Unit09Error Unit :=
  match LifecyclePhase.from_u8 self.phase with
  | none => (self, .error .invalidLifecycleState)
  | some old_phase =>
    if old_phase = new_phase then
      (self, .ok ())
    else
      ({ self with
          phase := new_phase.as_u8
          phase_changed_at := clock
          updated_at := clock }, .ok ())

/-- `Lifecycle::set_global_freeze`. -/
def set_global_freeze (self : Lifecycle) (freeze : Bool) (clock : Int) :
    Lifecycle × Except Unit09Error Unit :=
  ({ self with global_freeze := freeze, updated_at := clock }, .ok ())

/-- `Lifecycle::require_migration`. -/
def require_migration (self : Lifecycle) (clock : Int) :
    Lifecycle × Except Unit09Error Unit :=
  ({ self with
      migration_required := true
      migration_state_changed_at := clock
      updated_at := clock }, .ok ())

/-- `Lifecycle::start_migration`. -/
def start_migration (self : Lifecycle) (clock : Int) :
    Lifecycle × Except Unit09Error Unit :=
  if !self.migration_required then
    (self, .error .migrationRequired)
  else if self.migration_in_progress then
    (self, .error .migrationAlreadyApplied)
  else
    ({ self with
        migration_in_progress := true
        phase := LifecyclePhase.migration.as_u8
        phase_changed_at := clock
        migration_state_changed_at := clock
        updated_at := clock }, .ok ())

/-- `Lifecycle::complete_migration`. -/
def complete_migration (self : Lifecycle) (new_phase : LifecyclePhase)
    (clock : Int) : Lifecycle × Except Unit09Error Unit :=
  if !self.migration_in_progress then
    (self, .error .migrationRequired)
  else
    ({ self with
        migration_required := false
        migration_in_progress := false
        phase := new_phase.as_u8
        phase_changed_at := clock
        migration_state_changed_at := clock
        updated_at := clock }, .ok ())

/-- `Lifecycle::update_note_ref`. -/
def update_note_ref (self : Lifecycle) (note_ref : Nat) (clock : Int) :
    Lifecycle × Except Unit09Error Unit :=
  ({ self with note_ref := note_ref, updated_at := clock }, .ok ())

/-- `Lifecycle::assert_writes_allowed`. -/
def assert_writes_allowed (self : Lifecycle) : Except Unit09Error Unit :=
  match LifecyclePhase.from_u8 self.phase with
  | none => .error .invalidLifecycleState
  | some phase =>
    if self.global_freeze then
      .error .invalidLifecycleState
    else if phase.is_write_restricted then
      .error .invalidLifecycleState
    else if self.migration_required && !self.migration_in_progress then
      .error .migrationRequired
    else
      .ok ()

/-- `Lifecycle::is_effectively_read_only`. -/
def is_effectively_read_only (self : Lifecycle) : Except Unit09Error Bool :=
  match LifecyclePhase.from_u8 self.phase with
  | none => .error .invalidLifecycleState
  | some phase => .ok (self.global_freeze || phase.is_read_only)

end Lifecycle

-- ===========================================================================
-- Authority (state/authority.rs)
-- ===========================================================================

-- role_flags module from state/authority.rs.
namespace role_flags

def ADMIN : Nat := 1 <<< 0

def MAINTAINER : Nat := 1 <<< 1

def OBSERVER : Nat := 1 <<< 2

/-- Convenience mask for any role. -/
def ANY : Nat := ADMIN ||| MAINTAINER ||| OBSERVER

end role_flags

/-- `Authority` account from `state/authority.rs`; public keys are `Nat`. -/
structure Authority where
  authority : Nat
  roles : Nat
  is_global : Bool
  resource_scope : Nat
  created_at : Int
  updated_at : Int
  schema_version : Nat
  bump : Nat
  reserved : Nat
deriving DecidableEq, Repr

namespace Authority

/-- `Authority::validate_roles`: the Rust code rejects `roles` when
`roles & !known_mask != 0`; `!known_mask` on `u64` is the xor of the known
mask with the all-ones word. -/
def validate_roles (roles : Nat) : Except Unit09Error Unit :=
  if roles &&& (U64_MAX ^^^ role_flags.ANY) ≠ 0 then
    .error .authorityRoleNotAllowed
  else
    .ok ()

/-- `Authority::init`. -/
def init (self : Authority) (authority : Nat) (roles : Nat) (is_global : Bool)
    (resource_scope : Nat) (bump : Nat) (clock : Int) :
    Authority × Except Unit09Error Unit :=
  match validate_roles roles with
  | .error e => (self, .error e)
  | .ok _ =>
    ({ self with
        authority := authority
        roles := roles
        is_global := is_global
        resource_scope := if is_global then 0 else resource_scope
        created_at := clock
        updated_at := clock
        schema_version := 1
        bump := bump
        reserved := 0 }, .ok ())

/-- `Authority::grant_roles`. -/
def grant_roles (self : Authority) (roles_to_grant : Nat) (clock : Int) :
    Authority × Except Unit09Error Unit :=
  match validate_roles roles_to_grant with
  | .error e => (self, .error e)
  | .ok _ =>
    ({ self with roles := self.roles ||| roles_to_grant, updated_at := clock },
      .ok ())

/-- `Authority::revoke_roles`; `self.roles &= !roles_to_revoke` with the `u64`
complement written as xor with the all-ones word. -/
def revoke_roles (self : Authority) (roles_to_revoke : Nat) (clock : Int) :
    Authority × Except Unit09Error Unit :=
  ({ self with
      roles := self.roles &&& (roles_to_revoke ^^^ U64_MAX)
      updated_at := clock }, .ok ())

/-- `Authority::set_roles`. -/
def set_roles (self : Authority) (new_roles : Nat) (clock : Int) :
    Authority × Except Unit09Error Unit :=
  match validate_roles new_roles with
  | .error e => (self, .error e)
  | .ok _ =>
    ({ self with roles := new_roles, updated_at := clock }, .ok ())

/-- `Authority::clear_roles`. -/
def clear_roles (self : Authority) (clock : Int) :
    Authority × Except Unit09Error Unit :=
  ({ self with roles := 0, updated_at := clock }, .ok ())

/-- `Authority::set_scope`. -/
def set_scope (self : Authority) (is_global : Bool) (resource_scope : Nat)
    (clock : Int) : Authority × Except Unit09Error Unit :=
  ({ self with
      is_global := is_global
      resource_scope := if is_global then 0 else resource_scope
      updated_at := clock }, .ok ())

/-- `Authority::has_any_role`. -/
def has_any_role (self : Authority) (roles_mask : Nat) : Bool :=
  self.roles &&& roles_mask ≠ 0

/-- `Authority::has_all_roles`. -/
def has_all_roles (self : Authority) (roles_mask : Nat) : Bool :=
  self.roles &&& roles_mask = roles_mask

/-- `Authority::matches_resource`. -/
def matches_resource (self : Authority) (target : Nat) : Bool :=
  if self.is_global then true else self.resource_scope = target

/-- `Authority::assert_allowed_for_resource`. -/
def assert_allowed_for_resource (self : Authority) (signer : Nat)
    (required_roles : Nat) (resource : Nat) : Except Unit09Error Unit :=
  if signer ≠ self.authority then
    .error .invalidAuthority
  else if !self.matches_resource resource then
    .error .authorityRoleNotAllowed
  else if !self.has_any_role required_roles then
    .error .authorityRoleNotAllowed
  else
    .ok ()

end Authority

/-- A role-management call on an `Authority` account, with its argument. -/
inductive RoleOp where
  | grant (roles : Nat)
  | revoke (roles : Nat)
  | set (roles : Nat)
  | clear
deriving DecidableEq, Repr

/-- Apply one role-management call, keeping the state `self` is left in
(a failed call leaves the account unchanged, so this is the state after
the call whether it succeeded or not). -/
def RoleOp.apply (self : Authority) (clock : Int) : RoleOp → Authority
  | .grant r => (self.grant_roles r clock).1
  | .revoke r => (self.revoke_roles r clock).1
  | .set r => (self.set_roles r clock).1
  | .clear => (self.clear_roles clock).1

/-- Apply a finite sequence of role-management calls. -/
def RoleOp.apply_all (self : Authority) (clock : Int) (ops : List RoleOp) :
    Authority :=
  ops.foldl (fun a op => op.apply a clock) self

/-- The `u64` argument carried by a role-management call. -/
def RoleOp.arg : RoleOp → Nat
  | .grant r => r
  | .revoke r => r
  | .set r => r
  | .clear => 0

/-- A mutating call on an `Authority` account: role management or
`set_scope`. -/
inductive AuthOp where
  | role (op : RoleOp)
  | scope (is_global : Bool) (resource_scope : Nat)
deriving DecidableEq, Repr

/-- Apply one `Authority` mutation, keeping the state `self` is left in. -/
def AuthOp.apply (self : Authority) (clock : Int) : AuthOp → Authority
  | .role op => op.apply self clock
  | .scope g r => (self.set_scope g r clock).1

/-- Apply a finite sequence of `Authority` mutations. -/
def AuthOp.apply_all (self : Authority) (clock : Int) (ops : List AuthOp) :
    Authority :=
  ops.foldl (fun a op => op.apply a clock) self

-- ===========================================================================
-- Repo (state/repo.rs)
-- ===========================================================================

/-- Decides whether `pat` occurs as a contiguous substring of `l`; used to
embed Rust `str::contains` for string patterns. -/
def list_has_substring (pat : List Char) : List Char → Bool
  | [] => List.isPrefixOf pat []
  | c :: rest => List.isPrefixOf pat (c :: rest) || list_has_substring pat rest

/-- Rust `str::contains` with a string pattern. -/
def has_substring (s pat : String) : Bool :=
  list_has_substring pat.toList s.toList

/-- `Repo` account from `state/repo.rs`; public keys are `Nat` and the
reserved byte region is opaque. -/
structure Repo where
  repo_key : Nat
  authority : Nat
  name : String
  url : String
  tags : String
  is_active : Bool
  allow_observation : Bool
  module_count : Nat
  observation_count : Nat
  total_lines_of_code : Nat
  total_files_processed : Nat
  created_at : Int
  updated_at : Int
  schema_version : Nat
  bump : Nat
  reserved : Nat
deriving DecidableEq, Repr

namespace Repo

/-- `Repo::validate_name`. -/
def validate_name (c : Consts) (name : String) : Except Unit09Error Unit :=
  if name.isEmpty then
    .error .stringEmpty
  else if name.length > c.MAX_NAME_LEN then
    .error .stringTooLong
  else
    .ok ()

/-- `Repo::validate_url`. -/
def validate_url (c : Consts) (url : String) : Except Unit09Error Unit :=
  if url.isEmpty then
    .error .stringEmpty
  else if url.length > c.MAX_URL_LEN then
    .error .stringTooLong
  else if !has_substring url "://" || !url.contains ('.') then
    .error .invalidUrl
  else
    .ok ()

/-- `Repo::validate_tags`. -/
def validate_tags (c : Consts) (tags : String) : Except Unit09Error Unit :=
  if tags.length > c.MAX_REPO_TAGS_LEN then
    .error .stringTooLong
  else
    .ok ()

/-- `Repo::init`. -/
def init (self : Repo) (c : Consts) (repo_key : Nat) (authority : Nat)
    (name url tags : String) (allow_observation : Bool) (bump : Nat)
    (clock : Int) : Repo × Except Unit09Error Unit :=
  match validate_name c name with
  | .error e => (self, .error e)
  | .ok _ =>
  match validate_url c url with
  | .error e => (self, .error e)
  | .ok _ =>
  match validate_tags c tags with
  | .error e => (self, .error e)
  | .ok _ =>
    ({ self with
        repo_key := repo_key
        authority := authority
        name := name
        url := url
        tags := tags
        is_active := true
        allow_observation := allow_observation
        module_count := 0
        observation_count := 0
        total_lines_of_code := 0
        total_files_processed := 0
        created_at := clock
        updated_at := clock
        schema_version := c.CURRENT_SCHEMA_VERSION
        bump := bump
        reserved := 0 }, .ok ())

/-- The `if let Some(name) = maybe_name { validate; assign }` block of
`Repo::apply_update`. -/
def update_name_step (c : Consts) (self : Repo) :
    Option String → Except Unit09Error Repo
  | none => .ok self
  | some name =>
    match validate_name c name with
    | .error e => .error e
    | .ok _ => .ok { self with name := name }

/-- The `if let Some(url) = maybe_url { validate; assign }` block of
`Repo::apply_update`. -/
def update_url_step (c : Consts) (self : Repo) :
    Option String → Except Unit09Error Repo
  | none => .ok self
  | some url =>
    match validate_url c url with
    | .error e => .error e
    | .ok _ => .ok { self with url := url }

/-- The `if let Some(tags) = maybe_tags { validate; assign }` block of
`Repo::apply_update`. -/
def update_tags_step (c : Consts) (self : Repo) :
    Option String → Except Unit09Error Repo
  | none => .ok self
  | some tags =>
    match validate_tags c tags with
    | .error e => .error e
    | .ok _ => .ok { self with tags := tags }

/-- `Repo::apply_update`.  Mirrors the Rust control flow exactly: each present
field is validated and assigned in turn, a failed validation returns with the
assignments made so far still in place, and `updated_at` is stamped on every
successful call. -/
def apply_update (self : Repo) (c : Consts) (maybe_name : Option String)
    (maybe_url : Option String) (maybe_tags : Option String)
    (maybe_is_active : Option Bool) (maybe_allow_observation : Option Bool)
    (clock : Int) : Repo × Except Unit09Error Unit :=
  match update_name_step c self maybe_name with
  | .error e => (self, .error e)
  | .ok s1 =>
  match update_url_step c s1 maybe_url with
  | .error e => (s1, .error e)
  | .ok s2 =>
  match update_tags_step c s2 maybe_tags with
  | .error e => (s2, .error e)
  | .ok s3 =>
    ({ s3 with
        is_active := maybe_is_active.getD s3.is_active
        allow_observation := maybe_allow_observation.getD s3.allow_observation
        updated_at := clock }, .ok ())

/-- `Repo::assert_authority`. -/
def assert_authority (self : Repo) (signer : Nat) : Except Unit09Error Unit :=
  if signer ≠ self.authority then .error .invalidAuthority else .ok ()

/-- `Repo::assert_active`. -/
def assert_active (self : Repo) : Except Unit09Error Unit :=
  if !self.is_active then .error .repoInactive else .ok ()

/-- `Repo::assert_observation_allowed`. -/
def assert_observation_allowed (self : Repo) : Except Unit09Error Unit :=
  if !self.allow_observation then .error .observationNotAllowed else .ok ()

/-- `Repo::increment_module_count`. -/
def increment_module_count (self : Repo) (c : Consts) :
    Repo × Except Unit09Error Unit :=
  match checked_add_u32 self.module_count 1 with
  | none => (self, .error .counterOverflow)
  | some new_value =>
    if new_value > c.DEFAULT_MAX_MODULES_PER_REPO then
      (self, .error .repoModuleLimitReached)
    else
      ({ self with module_count := new_value }, .ok ())

/-- `Repo::decrement_module_count`. -/
def decrement_module_count (self : Repo) :
    Repo × Except Unit09Error Unit :=
  match checked_sub_u32 self.module_count 1 with
  | none => (self, .error .counterOverflow)
  | some new_value => ({ self with module_count := new_value }, .ok ())

/-- `Repo::record_observation`.  Mirrors the Rust control flow exactly:
`observation_count` is assigned before the lifetime soft-cap check, so the
soft-cap failure (and any later overflow failure) returns with that
assignment already made. -/
def record_observation (self : Repo) (c : Consts) (lines_of_code : Nat)
    (files_processed : Nat) : Repo × Except Unit09Error Unit :=
  if lines_of_code > c.MAX_LOC_PER_OBSERVATION then
    (self, .error .observationDataTooLarge)
  else if files_processed > c.MAX_FILES_PER_OBSERVATION then
    (self, .error .observationDataTooLarge)
  else
    match checked_add_u64 self.observation_count 1 with
    | none => (self, .error .counterOverflow)
    | some oc =>
      let self1 := { self with observation_count := oc }
      if self1.observation_count > c.SOFT_MAX_OBSERVATIONS_PER_REPO then
        (self1, .error .repoObservationLimitReached)
      else
        match checked_add_u64 self1.total_lines_of_code lines_of_code with
        | none => (self1, .error .counterOverflow)
        | some tl =>
          let self2 := { self1 with total_lines_of_code := tl }
          match checked_add_u64 self2.total_files_processed files_processed with
          | none => (self2, .error .counterOverflow)
          | some tf =>
            ({ self2 with total_files_processed := tf }, .ok ())

/-- Repeatedly call `increment_module_count`, starting from `self`; returns the
final account state and whether every call succeeded. -/
def increment_iter (self : Repo) (c : Consts) : Nat → Repo × Bool
  | 0 => (self, true)
  | n + 1 =>
    let (r1, ok1) := increment_iter self c n
    match r1.increment_module_count c with
    | (r2, .ok _) => (r2, ok1)
    | (r2, .error _) => (r2, false)

end Repo

-- ===========================================================================
-- Guarded instruction handlers (instructions/set_metadata.rs and
-- instructions/update_fork_state.rs).  The handler bodies are embedded from
-- the source; the callee account types Config, Fork and GlobalMetadata live
-- in files absent from the given sources and are modelled from the spec.
-- ===========================================================================

/-- Modelled from the spec: the `Config` singleton (`state/config.rs` is
absent from the given sources) — admin identity, fee bound, per-resource
ceiling, policy reference and active flag (spec §3 GlobalConfig). -/
structure Config where
  admin : Nat
  fee_bps : Nat
  max_modules_per_repo : Nat
  policy_ref : Nat
  is_active : Bool
  bump : Nat
deriving DecidableEq, Repr

namespace Config

/-- Modelled from the spec: `Config::assert_admin` (absent from the given
sources) — authorization by identity comparison against the stored admin,
failing with the admin-authorization error used by `initialize.rs` for an
admin mismatch. -/
def assert_admin (self : Config) (signer : Nat) : Except Unit09Error Unit :=
  if signer ≠ self.admin then .error .invalidAdmin else .ok ()

/-- Modelled from the spec: `Config::assert_active` (absent from the given
sources) — activation gate on the deployment-wide active flag. -/
def assert_active (self : Config) : Except Unit09Error Unit :=
  if !self.is_active then .error .configInactive else .ok ()

end Config

/-- Modelled from the spec: the `GlobalMetadata` account (`state` file absent
from the given sources) — descriptive string fields plus timestamps, as used
by `instructions/set_metadata.rs`. -/
structure GlobalMetadata where
  description : String
  tags : String
  website_url : String
  docs_url : String
  dashboard_url : String
  icon_uri : String
  extra_json : String
  created_at : Int
  updated_at : Int
  bump : Nat
deriving DecidableEq, Repr

namespace GlobalMetadata

/-- Modelled from the spec: `GlobalMetadata::init` (absent from the given
sources) — first-time initialization from already-validated values, stamping
both timestamps. -/
def init (self : GlobalMetadata) (description tags website_url docs_url
    dashboard_url icon_uri extra_json : String) (bump : Nat) (clock : Int) :
    GlobalMetadata × Except Unit09Error Unit :=
  ({ self with
      description := description
      tags := tags
      website_url := website_url
      docs_url := docs_url
      dashboard_url := dashboard_url
      icon_uri := icon_uri
      extra_json := extra_json
      created_at := clock
      updated_at := clock
      bump := bump }, .ok ())

/-- Modelled from the spec: `GlobalMetadata::apply_update` (absent from the
given sources) — partial update applying only the present, already-validated
fields and re-stamping `updated_at`. -/
def apply_update (self : GlobalMetadata) (description tags website_url docs_url
    dashboard_url icon_uri extra_json : Option String) (clock : Int) :
    GlobalMetadata × Except Unit09Error Unit :=
  ({ self with
      description := description.getD self.description
      tags := tags.getD self.tags
      website_url := website_url.getD self.website_url
      docs_url := docs_url.getD self.docs_url
      dashboard_url := dashboard_url.getD self.dashboard_url
      icon_uri := icon_uri.getD self.icon_uri
      extra_json := extra_json.getD self.extra_json
      updated_at := clock }, .ok ())

end GlobalMetadata

/-- Modelled from the spec: the `Fork` account (`state/fork.rs` is absent
from the given sources) — owner identity, label, metadata URI, tags and
activation flag, as used by `instructions/update_fork_state.rs`. -/
structure Fork where
  fork_key : Nat
  owner : Nat
  label : String
  metadata_uri : String
  tags : String
  is_active : Bool
  created_at : Int
  updated_at : Int
  bump : Nat
deriving DecidableEq, Repr

namespace Fork

/-- Modelled from the spec: `Fork::assert_owner` (absent from the given
sources) — authorization by identity comparison against the stored owner,
failing with the owner error `update_fork_state.rs` attaches to its
owner constraint. -/
def assert_owner (self : Fork) (signer : Nat) : Except Unit09Error Unit :=
  if signer ≠ self.owner then .error .invalidForkOwner else .ok ()

/-- Modelled from the spec: `Fork::apply_update` (absent from the given
sources) — partial update applying only the present, already-validated fields
and re-stamping `updated_at`. -/
def apply_update (self : Fork) (label metadata_uri tags : Option String)
    (is_active : Option Bool) (clock : Int) :
    Fork × Except Unit09Error Unit :=
  ({ self with
      label := label.getD self.label
      metadata_uri := metadata_uri.getD self.metadata_uri
      tags := tags.getD self.tags
      is_active := is_active.getD self.is_active
      updated_at := clock }, .ok ())

end Fork

/-- `SetMetadataArgs` from `instructions/set_metadata.rs`. -/
structure SetMetadataArgs where
  description : Option String
  tags : Option String
  website_url : Option String
  docs_url : Option String
  dashboard_url : Option String
  icon_uri : Option String
  extra_json : Option String
deriving DecidableEq, Repr

/-- `has_basic_url_prefix` from `instructions/set_metadata.rs`. -/
def basic_url_scheme_check (url : String) : Bool :=
  url.startsWith "http://" || url.startsWith "https://"

/-- One optional URL-shaped field check of the `set_metadata` handler:
length cap then scheme shape. -/
def check_meta_url (max_len : Nat) (field : Option String) :
    Except Unit09Error Unit :=
  match field with
  | none => .ok ()
  | some url =>
    if url.length > max_len then .error .stringTooLong
    else if !url.isEmpty && !basic_url_scheme_check url then
      .error .metadataInvalid
    else .ok ()

/-- `handle` from `instructions/set_metadata.rs`, on explicit state.  The
Anchor account constraints resolve PDAs and the bump; the handler body is
embedded in source order: lifecycle write gate, admin authorization, config
activation, per-field validation, then initialize-or-update of the metadata
account.  Returns the final `GlobalMetadata` state and the outcome. -/
def set_metadata_handle (c : Consts) (admin : Nat) (config : Config)
    (lifecycle : Lifecycle) (global_metadata : GlobalMetadata)
    (metadata_bump : Nat) (clock : Int) (args : SetMetadataArgs) :
    GlobalMetadata × Except Unit09Error Unit :=
  match lifecycle.assert_writes_allowed with
  | .error e => (global_metadata, .error e)
  | .ok _ =>
  match config.assert_admin admin with
  | .error e => (global_metadata, .error e)
  | .ok _ =>
  match config.assert_active with
  | .error e => (global_metadata, .error e)
  | .ok _ =>
  match (match args.description with
    | none => .ok ()
    | some description =>
      if description.length > c.MAX_DESCRIPTION_LEN then .error .stringTooLong
      else .ok () : Except Unit09Error Unit) with
  | .error e => (global_metadata, .error e)
  | .ok _ =>
  match (match args.tags with
    | none => .ok ()
    | some tags =>
      if tags.length > c.MAX_META_TAGS_LEN then .error .stringTooLong
      else .ok () : Except Unit09Error Unit) with
  | .error e => (global_metadata, .error e)
  | .ok _ =>
  match check_meta_url c.MAX_META_URL_LEN args.website_url with
  | .error e => (global_metadata, .error e)
  | .ok _ =>
  match check_meta_url c.MAX_META_URL_LEN args.docs_url with
  | .error e => (global_metadata, .error e)
  | .ok _ =>
  match check_meta_url c.MAX_META_URL_LEN args.dashboard_url with
  | .error e => (global_metadata, .error e)
  | .ok _ =>
  match (match args.icon_uri with
    | none => .ok ()
    | some icon_uri =>
      if icon_uri.length > c.MAX_ICON_URI_LEN then .error .stringTooLong
      else if !icon_uri.isEmpty
          && !icon_uri.startsWith "http://"
          && !icon_uri.startsWith "https://"
          && !icon_uri.startsWith "ipfs://"
          && !icon_uri.startsWith "ar://" then .error .metadataInvalid
      else .ok () : Except Unit09Error Unit) with
  | .error e => (global_metadata, .error e)
  | .ok _ =>
  match (match args.extra_json with
    | none => .ok ()
    | some extra_json =>
      if extra_json.length > c.MAX_EXTRA_JSON_LEN then .error .stringTooLong
      else .ok () : Except Unit09Error Unit) with
  | .error e => (global_metadata, .error e)
  | .ok _ =>
    let is_new := global_metadata.created_at = 0 ∧ global_metadata.updated_at = 0
    if is_new then
      global_metadata.init (args.description.getD "") (args.tags.getD "")
        (args.website_url.getD "") (args.docs_url.getD "")
        (args.dashboard_url.getD "") (args.icon_uri.getD "")
        (args.extra_json.getD "") metadata_bump clock
    else
      global_metadata.apply_update args.description args.tags args.website_url
        args.docs_url args.dashboard_url args.icon_uri args.extra_json clock

/-- `UpdateForkStateArgs` from `instructions/update_fork_state.rs`. -/
structure UpdateForkStateArgs where
  label : Option String
  metadata_uri : Option String
  tags : Option String
  is_active : Option Bool
deriving DecidableEq, Repr

/-- `handle` from `instructions/update_fork_state.rs`, on explicit state.
Embedded in source order: lifecycle write gate, config activation, fork owner
authorization, per-field validation, then `Fork::apply_update`.  Returns the
final `Fork` state and the outcome. -/
def update_fork_state_handle (c : Consts) (owner : Nat) (config : Config)
    (lifecycle : Lifecycle) (fork : Fork) (clock : Int)
    (args : UpdateForkStateArgs) : Fork × Except Unit09Error Unit :=
  match lifecycle.assert_writes_allowed with
  | .error e => (fork, .error e)
  | .ok _ =>
  match config.assert_active with
  | .error e => (fork, .error e)
  | .ok _ =>
  match fork.assert_owner owner with
  | .error e => (fork, .error e)
  | .ok _ =>
  match (match args.label with
    | none => .ok ()
    | some label =>
      if label.isEmpty then .error .stringEmpty
      else if label.length > c.MAX_LABEL_LEN then .error .stringTooLong
      else .ok () : Except Unit09Error Unit) with
  | .error e => (fork, .error e)
  | .ok _ =>
  match (match args.metadata_uri with
    | none => .ok ()
    | some metadata_uri =>
      if metadata_uri.isEmpty then .error .stringEmpty
      else if metadata_uri.length > c.MAX_METADATA_URI_LEN then
        .error .stringTooLong
      else if !(metadata_uri.startsWith "http://"
          || metadata_uri.startsWith "https://"
          || metadata_uri.startsWith "ipfs://"
          || metadata_uri.startsWith "ar://") then .error .metadataInvalid
      else .ok () : Except Unit09Error Unit) with
  | .error e => (fork, .error e)
  | .ok _ =>
  match (match args.tags with
    | none => .ok ()
    | some tags =>
      if tags.length > c.MAX_FORK_TAGS_LEN then .error .stringTooLong
      else .ok () : Except Unit09Error Unit) with
  | .error e => (fork, .error e)
  | .ok _ =>
    fork.apply_update args.label args.metadata_uri args.tags args.is_active
      clock

/-- The failure kinds the lifecycle write gate can produce (spec §7
`LifecycleBlocked` plus the migration-pending variant). -/
def is_lifecycle_error : Unit09Error → Bool
  | .invalidLifecycleState => true
  | .migrationRequired => true
  | _ => false

/-- The field/content validation failure kinds of the two guarded mutators
(spec §7 `ValidationFailed`). -/
def is_validation_error : Unit09Error → Bool
  | .stringEmpty => true
  | .stringTooLong => true
  | .metadataInvalid => true
  | .invalidUrl => true
  | _ => false

-- ===========================================================================
-- Concrete example states, used by witnesses and counterexamples.
-- ===========================================================================

/-- A concrete instantiation of the unknown crate constants. -/
def cEx : Consts :=
  { MAX_LOC_PER_OBSERVATION := 1000
    MAX_FILES_PER_OBSERVATION := 100
    SOFT_MAX_OBSERVATIONS_PER_REPO := 5
    DEFAULT_MAX_MODULES_PER_REPO := 3
    MAX_NAME_LEN := 100
    MAX_URL_LEN := 100
    MAX_REPO_TAGS_LEN := 100
    CURRENT_SCHEMA_VERSION := 1
    MAX_DESCRIPTION_LEN := 100
    MAX_META_TAGS_LEN := 100
    MAX_META_URL_LEN := 100
    MAX_ICON_URI_LEN := 100
    MAX_EXTRA_JSON_LEN := 100
    MAX_LABEL_LEN := 100
    MAX_METADATA_URI_LEN := 100
    MAX_FORK_TAGS_LEN := 100 }

/-- A lifecycle in the `Operational` phase with all flags clear. -/
def lOperEx : Lifecycle :=
  { phase := 1
    global_freeze := false
    migration_required := false
    migration_in_progress := false
    phase_changed_at := 0
    migration_state_changed_at := 0
    note_ref := 0
    created_at := 0
    updated_at := 0
    schema_version := 1
    bump := 0
    reserved := 0 }

/-- The operational lifecycle under an emergency global freeze. -/
def lFrozenEx : Lifecycle := { lOperEx with global_freeze := true }

/-- The operational lifecycle with a migration required but not started. -/
def lMigReqEx : Lifecycle := { lOperEx with migration_required := true }

/-- A repository one observation short of the example lifetime soft cap. -/
def repoEx : Repo :=
  { repo_key := 1
    authority := 2
    name := "r"
    url := "https://a.b"
    tags := ""
    is_active := true
    allow_observation := true
    module_count := 0
    observation_count := 5
    total_lines_of_code := 0
    total_files_processed := 0
    created_at := 0
    updated_at := 0
    schema_version := 1
    bump := 0
    reserved := 0 }

/-- A non-global authority entry scoped to resource 10 holding only the
observer role. -/
def authEx : Authority :=
  { authority := 7
    roles := role_flags.OBSERVER
    is_global := false
    resource_scope := 10
    created_at := 0
    updated_at := 0
    schema_version := 1
    bump := 0
    reserved := 0 }

-- ===========================================================================
-- Shared helper lemmas
-- ===========================================================================

/-- Every failure of the lifecycle write gate is a lifecycle-kind error. -/
theorem assert_writes_allowed_error_kind (l : Lifecycle) (e : Unit09Error)
    (h : l.assert_writes_allowed = .error e) : is_lifecycle_error e = true := by
  unfold Lifecycle.assert_writes_allowed at h
  split at h
  · cases h
    rfl
  · split at h
    · cases h
      rfl
    · split at h
      · cases h
        rfl
      · split at h
        · cases h
          rfl
        · cases h

/-- A successful `Config::assert_admin` identifies the signer with the stored
admin. -/
theorem assert_admin_ok (config : Config) (signer : Nat) (u : Unit)
    (h : config.assert_admin signer = .ok u) : signer = config.admin := by
  unfold Config.assert_admin at h
  split at h
  · cases h
  · next hne => exact Classical.byContradiction fun hc => hne hc

/-- A successful `Fork::assert_owner` identifies the signer with the stored
owner. -/
theorem assert_owner_ok (fork : Fork) (signer : Nat) (u : Unit)
    (h : fork.assert_owner signer = .ok u) : signer = fork.owner := by
  unfold Fork.assert_owner at h
  split at h
  · cases h
  · next hne => exact Classical.byContradiction fun hc => hne hc

end Unit09

namespace Unit09

-- ===========================================================================
-- C3
-- ===========================================================================

/-- C3: for every Lifecycle whose stored phase byte decodes to a valid phase,
`assert_writes_allowed` fails iff global_freeze is set, or the phase is
write-restricted (Frozen, Migration or Sunset), or a migration is required but
not in progress; in particular it fails whenever global_freeze is set and
succeeds in the clean Operational state. -/
theorem C3_assert_writes_allowed_iff (l : Lifecycle) (p : LifecyclePhase)
    (hp : LifecyclePhase.from_u8 l.phase = some p) :
    ((∃ e, l.assert_writes_allowed = .error e) ↔
      (l.global_freeze = true ∨ p.is_write_restricted = true ∨
        (l.migration_required = true ∧ l.migration_in_progress = false))) ∧
    (l.global_freeze = true → ∃ e, l.assert_writes_allowed = .error e) ∧
    (l.global_freeze = false → p = .operational → l.migration_required = false →
      l.assert_writes_allowed = .ok ()) := by
  unfold Lifecycle.assert_writes_allowed
  rw [hp]
  refine ⟨?_, ?_, ?_⟩
  · cases hgf : l.global_freeze <;>
      cases hwr : p.is_write_restricted <;>
        cases hmr : l.migration_required <;>
          cases hmp : l.migration_in_progress <;> simp [hgf, hwr, hmr, hmp]
  · intro hgf
    simp [hgf]
  · intro hgf hop hmr
    subst hop
    simp [hgf, hmr, LifecyclePhase.is_write_restricted]

/-- Witness for C3 at a concrete frozen state. -/
theorem C3_witness : ∃ e, lFrozenEx.assert_writes_allowed = .error e :=
  (C3_assert_writes_allowed_iff lFrozenEx .operational rfl).2.1 rfl

-- ===========================================================================
-- C9
-- ===========================================================================

/-- C9: for every Lifecycle whose stored phase byte decodes to a valid phase,
`is_effectively_read_only` returns true iff global_freeze is set or the phase
is Frozen or Sunset; the Migration phase is write-blocked but not counted as
read-only. -/
theorem C9_read_only_iff (l : Lifecycle) (p : LifecyclePhase)
    (hp : LifecyclePhase.from_u8 l.phase = some p) :
    (l.is_effectively_read_only = .ok (l.global_freeze || p.is_read_only)) ∧
    ((l.is_effectively_read_only = .ok true) ↔
      (l.global_freeze = true ∨ p = .frozen ∨ p = .sunset)) ∧
    (p = .migration → l.global_freeze = false →
      l.is_effectively_read_only = .ok false ∧
        ∃ e, l.assert_writes_allowed = .error e) := by
  refine ⟨?_, ?_, ?_⟩
  · unfold Lifecycle.is_effectively_read_only
    rw [hp]
  · unfold Lifecycle.is_effectively_read_only
    rw [hp]
    cases hgf : l.global_freeze <;> cases p <;>
      simp [LifecyclePhase.is_read_only]
  · intro hmig hgf
    subst hmig
    constructor
    · unfold Lifecycle.is_effectively_read_only
      rw [hp]
      simp [hgf, LifecyclePhase.is_read_only]
    · refine ⟨.invalidLifecycleState, ?_⟩
      unfold Lifecycle.assert_writes_allowed
      rw [hp]
      simp [hgf, LifecyclePhase.is_write_restricted]

/-- Witness for C9 at a concrete Migration-phase state. -/
theorem C9_witness :
    ({ lOperEx with phase := 4 } : Lifecycle).is_effectively_read_only =
        .ok false ∧
      ∃ e, ({ lOperEx with phase := 4 } : Lifecycle).assert_writes_allowed =
        .error e :=
  (C9_read_only_iff { lOperEx with phase := 4 } .migration rfl).2.2 rfl rfl

-- ===========================================================================
-- C6
-- ===========================================================================

/-- C6: `start_migration` fails with the migration-not-required error when
migration_required is false, fails with the migration-already-in-progress
error when migration_in_progress is already set (in particular on a second
call without an intervening `complete_migration`), and otherwise sets
migration_in_progress and forces the Migration phase. -/
theorem C6_start_migration (l : Lifecycle) (clock clock2 : Int) :
    (l.migration_required = false →
      l.start_migration clock = (l, .error .migrationRequired)) ∧
    (l.migration_required = true → l.migration_in_progress = true →
      l.start_migration clock = (l, .error .migrationAlreadyApplied)) ∧
    (l.migration_required = true → l.migration_in_progress = false →
      l.start_migration clock =
        ({ l with
            migration_in_progress := true
            phase := LifecyclePhase.migration.as_u8
            phase_changed_at := clock
            migration_state_changed_at := clock
            updated_at := clock }, .ok ())) ∧
    (∀ l1, l.start_migration clock = (l1, .ok ()) →
      l1.start_migration clock2 = (l1, .error .migrationAlreadyApplied)) := by
  refine ⟨?_, ?_, ?_, ?_⟩
  · intro hmr
    simp [Lifecycle.start_migration, hmr]
  · intro hmr hmp
    simp [Lifecycle.start_migration, hmr, hmp]
  · intro hmr hmp
    simp [Lifecycle.start_migration, hmr, hmp]
  · intro l1 h
    cases hmr : l.migration_required <;>
      cases hmp : l.migration_in_progress <;>
        simp [Lifecycle.start_migration, hmr, hmp] at h
    subst h
    simp [Lifecycle.start_migration, hmr]

/-- Witness for C6: a migration-required state starts a migration, and the
second call fails with the already-in-progress error. -/
theorem C6_witness :
    lMigReqEx.start_migration 3 =
      ({ lMigReqEx with
          migration_in_progress := true
          phase := LifecyclePhase.migration.as_u8
          phase_changed_at := 3
          migration_state_changed_at := 3
          updated_at := 3 }, .ok ()) ∧
    ({ lMigReqEx with
        migration_in_progress := true
        phase := LifecyclePhase.migration.as_u8
        phase_changed_at := 3
        migration_state_changed_at := 3
        updated_at := 3 } : Lifecycle).start_migration 4 =
      ({ lMigReqEx with
          migration_in_progress := true
          phase := LifecyclePhase.migration.as_u8
          phase_changed_at := 3
          migration_state_changed_at := 3
          updated_at := 3 }, .error .migrationAlreadyApplied) :=
  ⟨(C6_start_migration lMigReqEx 3 4).2.2.1 rfl rfl,
    (C6_start_migration lMigReqEx 3 4).2.2.2 _
      ((C6_start_migration lMigReqEx 3 4).2.2.1 rfl rfl)⟩

-- ===========================================================================
-- C7
-- ===========================================================================

/-- After `k ≤ ceiling` successful increments from a zero module count the
counter holds exactly `k`. -/
theorem increment_iter_ok (c : Consts) (r : Repo)
    (hceil : c.DEFAULT_MAX_MODULES_PER_REPO ≤ U32_MAX)
    (h0 : r.module_count = 0) (k : Nat)
    (hk : k ≤ c.DEFAULT_MAX_MODULES_PER_REPO) :
    (r.increment_iter c k).1 = { r with module_count := k } ∧
      (r.increment_iter c k).2 = true := by
  induction k with
  | zero =>
    constructor
    · show r = _
      rw [← h0]
    · rfl
  | succ n ih =>
    obtain ⟨ih1, ih2⟩ := ih (Nat.le_of_succ_le hk)
    have hn1 : n + 1 ≤ U32_MAX := Nat.le_trans hk hceil
    have hpair : r.increment_iter c n = ({ r with module_count := n }, true) := by
      rw [← ih1, ← ih2]
    unfold Repo.increment_iter
    rw [hpair]
    have hadd : checked_add_u32 n 1 = some (n + 1) := by
      unfold checked_add_u32
      rw [if_pos hn1]
    simp only [Repo.increment_module_count, hadd]
    rw [if_neg (by omega)]
    exact ⟨rfl, rfl⟩

/-- C7: `increment_module_count` succeeds and adds one exactly while the
counter is below the ceiling; the call that would exceed the ceiling fails
with the limit error and leaves the counter unchanged; a `u32` overflow fails
with the overflow error without wrapping; and from zero, `ceiling`-many calls
all succeed ending at the ceiling, while the next call fails and leaves the
counter there. -/
theorem C7_increment_module_count (c : Consts) (r : Repo)
    (hceil : c.DEFAULT_MAX_MODULES_PER_REPO ≤ U32_MAX)
    (hmc : r.module_count ≤ U32_MAX) :
    (r.module_count < c.DEFAULT_MAX_MODULES_PER_REPO →
      r.increment_module_count c =
        ({ r with module_count := r.module_count + 1 }, .ok ())) ∧
    (c.DEFAULT_MAX_MODULES_PER_REPO ≤ r.module_count →
      r.module_count < U32_MAX →
      r.increment_module_count c = (r, .error .repoModuleLimitReached)) ∧
    (r.module_count = U32_MAX →
      r.increment_module_count c = (r, .error .counterOverflow)) ∧
    (r.module_count = 0 →
      (r.increment_iter c c.DEFAULT_MAX_MODULES_PER_REPO).2 = true ∧
      (r.increment_iter c c.DEFAULT_MAX_MODULES_PER_REPO).1.module_count =
        c.DEFAULT_MAX_MODULES_PER_REPO ∧
      ∃ e,
        (r.increment_iter c c.DEFAULT_MAX_MODULES_PER_REPO).1.increment_module_count
            c =
          ((r.increment_iter c c.DEFAULT_MAX_MODULES_PER_REPO).1, .error e)) := by
  refine ⟨?_, ?_, ?_, ?_⟩
  · intro hlt
    have hadd : checked_add_u32 r.module_count 1 = some (r.module_count + 1) := by
      unfold checked_add_u32
      rw [if_pos (by omega)]
    simp only [Repo.increment_module_count, hadd]
    rw [if_neg (by omega)]
  · intro hge hlt
    have hadd : checked_add_u32 r.module_count 1 = some (r.module_count + 1) := by
      unfold checked_add_u32
      rw [if_pos (by omega)]
    simp only [Repo.increment_module_count, hadd]
    rw [if_pos (by omega)]
  · intro hmax
    have hadd : checked_add_u32 r.module_count 1 = none := by
      unfold checked_add_u32
      rw [if_neg (by omega)]
    simp only [Repo.increment_module_count, hadd]
  · intro h0
    obtain ⟨h1, h2⟩ :=
      increment_iter_ok c r hceil h0 c.DEFAULT_MAX_MODULES_PER_REPO
        (Nat.le_refl _)
    refine ⟨h2, by rw [h1], ?_⟩
    rw [h1]
    by_cases htop : c.DEFAULT_MAX_MODULES_PER_REPO = U32_MAX
    · refine ⟨.counterOverflow, ?_⟩
      have hadd : checked_add_u32 c.DEFAULT_MAX_MODULES_PER_REPO 1 = none := by
        unfold checked_add_u32
        rw [if_neg (by omega)]
      simp only [Repo.increment_module_count, hadd]
    · refine ⟨.repoModuleLimitReached, ?_⟩
      have hadd : checked_add_u32 c.DEFAULT_MAX_MODULES_PER_REPO 1 =
          some (c.DEFAULT_MAX_MODULES_PER_REPO + 1) := by
        unfold checked_add_u32
        rw [if_pos (by omega)]
      simp only [Repo.increment_module_count, hadd]
      rw [if_pos (by omega)]

/-- Witness for C7: with the example ceiling of 3, three increments from zero
succeed ending at 3 and the fourth call fails leaving the counter at 3. -/
theorem C7_witness :
    (repoEx.increment_iter cEx cEx.DEFAULT_MAX_MODULES_PER_REPO).2 = true ∧
    (repoEx.increment_iter cEx cEx.DEFAULT_MAX_MODULES_PER_REPO).1.module_count =
      cEx.DEFAULT_MAX_MODULES_PER_REPO ∧
    ∃ e,
      (repoEx.increment_iter cEx cEx.DEFAULT_MAX_MODULES_PER_REPO).1.increment_module_count
          cEx =
        ((repoEx.increment_iter cEx cEx.DEFAULT_MAX_MODULES_PER_REPO).1,
          .error e) :=
  (C7_increment_module_count cEx repoEx (by decide) (by decide)).2.2.2 rfl

-- ===========================================================================
-- C4 (corrected): the strict evaluation order holds, but the scope failure
-- and the role failure raise the same error code, so they are not
-- distinguishable error kinds.
-- ===========================================================================

/-- C4 counterexample: on the concrete non-global entry `authEx` (scope 10,
observer role only) with the matching signer, a scope mismatch (resource 11)
and a role shortfall (resource 10, admin required) both return the very same
error code `AuthorityRoleNotAllowed`, refuting the claim that the scope and
role failures are distinguishable error kinds. -/
theorem C4_counterexample :
    authEx.assert_allowed_for_resource 7 role_flags.ADMIN 11 =
        .error .authorityRoleNotAllowed ∧
      authEx.assert_allowed_for_resource 7 role_flags.ADMIN 10 =
        .error .authorityRoleNotAllowed ∧
      authEx.matches_resource 11 = false ∧
      authEx.matches_resource 10 = true ∧
      authEx.has_any_role role_flags.ADMIN = false := by
  refine ⟨rfl, rfl, rfl, rfl, rfl⟩

/-- C4 (amended): `assert_allowed_for_resource` is evaluated in strict order —
`InvalidAuthority` exactly when the signer differs from the stored identity,
and otherwise the single code `AuthorityRoleNotAllowed` exactly when the scope
does not match or (scope matching) the roles have no overlap; success exactly
when all three checks pass.  Identity failures are distinguishable from the
rest, but scope and role failures share one error code. -/
theorem C4_assert_allowed_order (a : Authority) (signer required_roles
    resource : Nat) :
    (a.assert_allowed_for_resource signer required_roles resource =
        .error .invalidAuthority ↔ signer ≠ a.authority) ∧
    (a.assert_allowed_for_resource signer required_roles resource =
        .error .authorityRoleNotAllowed ↔
      (signer = a.authority ∧
        (a.matches_resource resource = false ∨
          (a.matches_resource resource = true ∧
            a.has_any_role required_roles = false)))) ∧
    (a.assert_allowed_for_resource signer required_roles resource = .ok () ↔
      (signer = a.authority ∧ a.matches_resource resource = true ∧
        a.has_any_role required_roles = true)) := by
  by_cases hid : signer = a.authority <;>
    cases hm : a.matches_resource resource <;>
      cases hr : a.has_any_role required_roles <;>
        simp [Authority.assert_allowed_for_resource, hid, hm, hr]

-- ===========================================================================
-- C8
-- ===========================================================================

/-- A successful name step assigns the present name and nothing else. -/
theorem update_name_step_ok (c : Consts) (r s1 : Repo) (mn : Option String)
    (h : Repo.update_name_step c r mn = .ok s1) :
    s1 = { r with name := mn.getD r.name } := by
  cases mn with
  | none =>
    cases h
    rfl
  | some s =>
    simp only [Repo.update_name_step] at h
    split at h
    · cases h
    · cases h
      rfl

/-- A successful url step assigns the present url and nothing else. -/
theorem update_url_step_ok (c : Consts) (r s1 : Repo) (mu : Option String)
    (h : Repo.update_url_step c r mu = .ok s1) :
    s1 = { r with url := mu.getD r.url } := by
  cases mu with
  | none =>
    cases h
    rfl
  | some s =>
    simp only [Repo.update_url_step] at h
    split at h
    · cases h
    · cases h
      rfl

/-- A successful tags step assigns the present tags and nothing else. -/
theorem update_tags_step_ok (c : Consts) (r s1 : Repo) (mt : Option String)
    (h : Repo.update_tags_step c r mt = .ok s1) :
    s1 = { r with tags := mt.getD r.tags } := by
  cases mt with
  | none =>
    cases h
    rfl
  | some s =>
    simp only [Repo.update_tags_step] at h
    split at h
    · cases h
    · cases h
      rfl

/-- C8: `apply_update` with every argument absent changes only `updated_at`;
in general a successful call applies exactly the present fields, leaves the
absent ones (and every non-metadata field) untouched, and always re-stamps
`updated_at`. -/
theorem C8_apply_update_frame (c : Consts) (r : Repo)
    (mn mu mt : Option String) (mia mao : Option Bool) (clock : Int) :
    (r.apply_update c none none none none none clock =
      ({ r with updated_at := clock }, .ok ())) ∧
    (∀ r1, r.apply_update c mn mu mt mia mao clock = (r1, .ok ()) →
      r1 = { r with
        name := mn.getD r.name
        url := mu.getD r.url
        tags := mt.getD r.tags
        is_active := mia.getD r.is_active
        allow_observation := mao.getD r.allow_observation
        updated_at := clock }) := by
  constructor
  · rfl
  · intro r1 h
    unfold Repo.apply_update at h
    cases hn : Repo.update_name_step c r mn with
    | error e =>
      simp only [hn] at h
      simp at h
    | ok s1 =>
    simp only [hn] at h
    cases hu : Repo.update_url_step c s1 mu with
    | error e =>
      simp only [hu] at h
      simp at h
    | ok s2 =>
    simp only [hu] at h
    cases ht : Repo.update_tags_step c s2 mt with
    | error e =>
      simp only [ht] at h
      simp at h
    | ok s3 =>
    simp only [ht] at h
    injection h with h1 h2
    rw [← h1, update_tags_step_ok c s2 s3 mt ht,
      update_url_step_ok c s1 s2 mu hu, update_name_step_ok c r s1 mn hn]

/-- Witness for C8: an all-absent update on a concrete repository changes
only `updated_at`, and a concrete partial update applies exactly the present
fields. -/
theorem C8_witness :
    repoEx.apply_update cEx none none none none none 99 =
      ({ repoEx with updated_at := 99 }, .ok ()) ∧
    ({ repoEx with name := "nm", is_active := false, updated_at := 99 } :
        Repo) =
      { repoEx with
          name := (some "nm").getD repoEx.name
          url := (none : Option String).getD repoEx.url
          tags := (none : Option String).getD repoEx.tags
          is_active := (some false).getD repoEx.is_active
          allow_observation := (none : Option Bool).getD repoEx.allow_observation
          updated_at := 99 } :=
  ⟨(C8_apply_update_frame cEx repoEx none none none none none 99).1,
    (C8_apply_update_frame cEx repoEx (some "nm") none none (some false) none
        99).2
      { repoEx with name := "nm", is_active := false, updated_at := 99 } rfl⟩

-- ===========================================================================
-- C1 (corrected): a failed record_observation never touches the lines/files
-- totals beyond the failing addition, but the soft-cap failure (and the
-- overflow failures after it) leave observation_count already incremented in
-- the account value, so the account is not always byte-identical.
-- ===========================================================================

/-- A successful `u64` checked add returns the exact sum. -/
theorem checked_add_u64_some (a b v : Nat) (h : checked_add_u64 a b = some v) :
    v = a + b := by
  unfold checked_add_u64 at h
  split at h
  · cases h
    rfl
  · cases h

/-- C1 counterexample: on the concrete repository `repoEx`, one observation
short of the example soft cap of 5, an in-range call is rejected with the
observation-limit error, yet the returned account has `observation_count = 6`,
not its prior value 5 — so a failing `record_observation` does not leave the
entire account unmodified. -/
theorem C1_counterexample :
    (repoEx.record_observation cEx 10 1).2 =
        .error .repoObservationLimitReached ∧
      (repoEx.record_observation cEx 10 1).1.observation_count = 6 ∧
      repoEx.observation_count = 5 ∧
      10 ≤ cEx.MAX_LOC_PER_OBSERVATION ∧ 1 ≤ cEx.MAX_FILES_PER_OBSERVATION :=
  ⟨rfl, rfl, rfl, by decide, by decide⟩

/-- C1 (amended): whenever `record_observation` fails, the `files` total is
untouched and nothing beyond the failing step is applied: an over-limit
argument (or an `observation_count` overflow) leaves the account unmodified;
the soft-cap failure leaves the account modified exactly by the
`observation_count` increment; only the final overflow failure can
additionally leave the already-added lines total. -/
theorem C1_record_observation_failure_frame (c : Consts) (r r1 : Repo)
    (lines files : Nat) (e : Unit09Error)
    (h : r.record_observation c lines files = (r1, .error e)) :
    r1.total_files_processed = r.total_files_processed ∧
    (r1 = r ∨ r1 = { r with observation_count := r.observation_count + 1 } ∨
      (e = .counterOverflow ∧
        r1 = { r with
          observation_count := r.observation_count + 1
          total_lines_of_code := r.total_lines_of_code + lines })) ∧
    (e = .observationDataTooLarge → r1 = r) ∧
    (e = .repoObservationLimitReached →
      r1 = { r with observation_count := r.observation_count + 1 }) := by
  unfold Repo.record_observation at h
  by_cases hl : lines > c.MAX_LOC_PER_OBSERVATION
  · rw [if_pos hl] at h
    injection h with ha hb
    injection hb with hc
    subst ha
    subst hc
    simp
  · rw [if_neg hl] at h
    by_cases hf : files > c.MAX_FILES_PER_OBSERVATION
    · rw [if_pos hf] at h
      injection h with ha hb
      injection hb with hc
      subst ha
      subst hc
      simp
    · rw [if_neg hf] at h
      cases hadd : checked_add_u64 r.observation_count 1 with
      | none =>
        rw [hadd] at h
        injection h with ha hb
        injection hb with hc
        subst ha
        subst hc
        simp
      | some oc =>
        rw [hadd] at h
        have hoc := checked_add_u64_some _ _ _ hadd
        subst hoc
        dsimp only at h
        by_cases hs :
            r.observation_count + 1 > c.SOFT_MAX_OBSERVATIONS_PER_REPO
        · rw [if_pos hs] at h
          injection h with ha hb
          injection hb with hc
          subst ha
          subst hc
          simp
        · rw [if_neg hs] at h
          cases haddl : checked_add_u64 r.total_lines_of_code lines with
          | none =>
            rw [haddl] at h
            injection h with ha hb
            injection hb with hc
            subst ha
            subst hc
            simp
          | some tl =>
            rw [haddl] at h
            have htl := checked_add_u64_some _ _ _ haddl
            subst htl
            dsimp only at h
            cases haddf : checked_add_u64 r.total_files_processed files with
            | none =>
              rw [haddf] at h
              injection h with ha hb
              injection hb with hc
              subst ha
              subst hc
              simp
            | some tf =>
              rw [haddf] at h
              injection h with ha hb
              cases hb

/-- Witness for C1 (amended) at the concrete soft-cap rejection. -/
theorem C1_witness :
    ({ repoEx with observation_count := 6 } : Repo).total_files_processed =
        repoEx.total_files_processed ∧
      (({ repoEx with observation_count := 6 } : Repo) = repoEx ∨
        ({ repoEx with observation_count := 6 } : Repo) =
          { repoEx with observation_count := repoEx.observation_count + 1 } ∨
        (Unit09Error.repoObservationLimitReached = .counterOverflow ∧
          ({ repoEx with observation_count := 6 } : Repo) =
            { repoEx with
              observation_count := repoEx.observation_count + 1
              total_lines_of_code := repoEx.total_lines_of_code + 10 })) ∧
      (Unit09Error.repoObservationLimitReached = .observationDataTooLarge →
        ({ repoEx with observation_count := 6 } : Repo) = repoEx) ∧
      (Unit09Error.repoObservationLimitReached = .repoObservationLimitReached →
        ({ repoEx with observation_count := 6 } : Repo) =
          { repoEx with observation_count := repoEx.observation_count + 1 }) :=
  C1_record_observation_failure_frame cEx repoEx
    { repoEx with observation_count := 6 } 10 1 .repoObservationLimitReached
    rfl

-- ===========================================================================
-- C2
-- ===========================================================================

/-- A lifecycle-kind error is never a validation-kind error. -/
theorem lifecycle_error_not_validation (e : Unit09Error)
    (h : is_lifecycle_error e = true) : is_validation_error e = false := by
  cases e <;> first
    | rfl
    | cases h

/-- A failing `Config::assert_admin` fails with the admin error. -/
theorem assert_admin_error (config : Config) (signer : Nat) (e : Unit09Error)
    (h : config.assert_admin signer = .error e) : e = .invalidAdmin := by
  unfold Config.assert_admin at h
  split at h
  · cases h
    rfl
  · cases h

/-- A failing `Config::assert_active` fails with the inactive-config error. -/
theorem assert_active_error (config : Config) (e : Unit09Error)
    (h : config.assert_active = .error e) : e = .configInactive := by
  unfold Config.assert_active at h
  split at h
  · cases h
    rfl
  · cases h

/-- A failing `Fork::assert_owner` fails with the fork-owner error. -/
theorem assert_owner_error (fork : Fork) (signer : Nat) (e : Unit09Error)
    (h : fork.assert_owner signer = .error e) : e = .invalidForkOwner := by
  unfold Fork.assert_owner at h
  split at h
  · cases h
    rfl
  · cases h

/-- C2: in both guarded mutators (`set_metadata`, `update_fork_state`), a
failing lifecycle write gate makes the handler fail with that lifecycle-kind
error — never an authorization error — for every signer; and a field/content
validation error can only be returned once authorization has succeeded, i.e.
the signer is the stored admin (resp. fork owner). -/
theorem C2_lifecycle_gate_precedence :
    (∀ (c : Consts) (admin : Nat) (config : Config) (lifecycle : Lifecycle)
        (gm : GlobalMetadata) (bump : Nat) (clock : Int)
        (args : SetMetadataArgs) (e : Unit09Error),
      lifecycle.assert_writes_allowed = .error e →
        set_metadata_handle c admin config lifecycle gm bump clock args =
            (gm, .error e) ∧
          is_lifecycle_error e = true) ∧
    (∀ (c : Consts) (admin : Nat) (config : Config) (lifecycle : Lifecycle)
        (gm st : GlobalMetadata) (bump : Nat) (clock : Int)
        (args : SetMetadataArgs) (e : Unit09Error),
      set_metadata_handle c admin config lifecycle gm bump clock args =
          (st, .error e) →
        is_validation_error e = true → admin = config.admin) ∧
    (∀ (c : Consts) (owner : Nat) (config : Config) (lifecycle : Lifecycle)
        (fork : Fork) (clock : Int) (args : UpdateForkStateArgs)
        (e : Unit09Error),
      lifecycle.assert_writes_allowed = .error e →
        update_fork_state_handle c owner config lifecycle fork clock args =
            (fork, .error e) ∧
          is_lifecycle_error e = true) ∧
    (∀ (c : Consts) (owner : Nat) (config : Config) (lifecycle : Lifecycle)
        (fork st : Fork) (clock : Int) (args : UpdateForkStateArgs)
        (e : Unit09Error),
      update_fork_state_handle c owner config lifecycle fork clock args =
          (st, .error e) →
        is_validation_error e = true → owner = fork.owner) := by
  refine ⟨?_, ?_, ?_, ?_⟩
  · intro c admin config lifecycle gm bump clock args e hw
    constructor
    · unfold set_metadata_handle
      rw [hw]
    · exact assert_writes_allowed_error_kind lifecycle e hw
  · intro c admin config lifecycle gm st bump clock args e h hv
    cases hw : lifecycle.assert_writes_allowed with
    | error e1 =>
      unfold set_metadata_handle at h
      rw [hw] at h
      dsimp only at h
      injection h with h1 h2
      injection h2 with h3
      subst h3
      have hlc := assert_writes_allowed_error_kind lifecycle e1 hw
      rw [lifecycle_error_not_validation e1 hlc] at hv
      cases hv
    | ok u =>
      cases hadm : config.assert_admin admin with
      | ok u2 => exact assert_admin_ok config admin u2 hadm
      | error e2 =>
        unfold set_metadata_handle at h
        rw [hw] at h
        dsimp only at h
        rw [hadm] at h
        dsimp only at h
        injection h with h1 h2
        injection h2 with h3
        subst h3
        rw [assert_admin_error config admin e2 hadm] at hv
        cases hv
  · intro c owner config lifecycle fork clock args e hw
    constructor
    · unfold update_fork_state_handle
      rw [hw]
    · exact assert_writes_allowed_error_kind lifecycle e hw
  · intro c owner config lifecycle fork st clock args e h hv
    cases hw : lifecycle.assert_writes_allowed with
    | error e1 =>
      unfold update_fork_state_handle at h
      rw [hw] at h
      dsimp only at h
      injection h with h1 h2
      injection h2 with h3
      subst h3
      have hlc := assert_writes_allowed_error_kind lifecycle e1 hw
      rw [lifecycle_error_not_validation e1 hlc] at hv
      cases hv
    | ok u =>
      cases hact : config.assert_active with
      | error e2 =>
        unfold update_fork_state_handle at h
        rw [hw] at h
        dsimp only at h
        rw [hact] at h
        dsimp only at h
        injection h with h1 h2
        injection h2 with h3
        subst h3
        rw [assert_active_error config e2 hact] at hv
        cases hv
      | ok u2 =>
        cases hown : fork.assert_owner owner with
        | ok u3 => exact assert_owner_ok fork owner u3 hown
        | error e3 =>
          unfold update_fork_state_handle at h
          rw [hw] at h
          dsimp only at h
          rw [hact] at h
          dsimp only at h
          rw [hown] at h
          dsimp only at h
          injection h with h1 h2
          injection h2 with h3
          subst h3
          rw [assert_owner_error fork owner e3 hown] at hv
          cases hv

/-- Witness for C2: a frozen deployment rejects a non-admin signer of
`set_metadata` with the lifecycle error, not an authorization error. -/
theorem C2_witness :
    set_metadata_handle cEx 12345
        { admin := 1, fee_bps := 0, max_modules_per_repo := 3, policy_ref := 0,
          is_active := true, bump := 0 }
        lFrozenEx
        { description := "", tags := "", website_url := "", docs_url := "",
          dashboard_url := "", icon_uri := "", extra_json := "",
          created_at := 1, updated_at := 1, bump := 0 }
        0 7
        { description := none, tags := none, website_url := none,
          docs_url := none, dashboard_url := none, icon_uri := none,
          extra_json := none } =
      ({ description := "", tags := "", website_url := "", docs_url := "",
          dashboard_url := "", icon_uri := "", extra_json := "",
          created_at := 1, updated_at := 1, bump := 0 },
        .error .invalidLifecycleState) ∧
    is_lifecycle_error .invalidLifecycleState = true :=
  C2_lifecycle_gate_precedence.1 cEx 12345
    { admin := 1, fee_bps := 0, max_modules_per_repo := 3, policy_ref := 0,
      is_active := true, bump := 0 }
    lFrozenEx
    { description := "", tags := "", website_url := "", docs_url := "",
      dashboard_url := "", icon_uri := "", extra_json := "",
      created_at := 1, updated_at := 1, bump := 0 }
    0 7
    { description := none, tags := none, website_url := none, docs_url := none,
      dashboard_url := none, icon_uri := none, extra_json := none }
    .invalidLifecycleState rfl

-- ===========================================================================
-- C5
-- ===========================================================================

/-- `validate_roles` succeeds exactly when no unknown bit is set. -/
theorem validate_roles_ok_iff (r : Nat) :
    Authority.validate_roles r = .ok () ↔
      r &&& (U64_MAX ^^^ role_flags.ANY) = 0 := by
  unfold Authority.validate_roles
  split <;> simp_all

theorem mask_high_bits : ∀ i < 64, 3 ≤ i →
    Nat.testBit (U64_MAX ^^^ role_flags.ANY) i = true := by decide

theorem mask_low_bits : ∀ i < 3,
    Nat.testBit (U64_MAX ^^^ role_flags.ANY) i = false := by decide

theorem roles_lt8_of_valid (r : Nat) (h64 : r ≤ U64_MAX)
    (hv : r &&& (U64_MAX ^^^ role_flags.ANY) = 0) : r < 8 := by
  rw [show (8 : Nat) = 2 ^ 3 from rfl]
  apply Nat.lt_pow_two_of_testBit
  intro i hi
  by_cases hlt : i < 64
  · have hm := mask_high_bits i hlt hi
    have hz : Nat.testBit (r &&& (U64_MAX ^^^ role_flags.ANY)) i = false := by
      rw [hv]
      exact Nat.zero_testBit i
    rw [Nat.testBit_and, hm, Bool.and_true] at hz
    exact hz
  · have hri : r < 2 ^ i := by
      have h1 : r < 2 ^ 64 := by
        have h2 : U64_MAX < 2 ^ 64 := by decide
        omega
      exact lt_of_lt_of_le h1 (Nat.pow_le_pow_right (by omega) (by omega))
    exact Nat.testBit_lt_two_pow hri

theorem valid_of_roles_lt8 (r : Nat) (h : r < 8) :
    r &&& (U64_MAX ^^^ role_flags.ANY) = 0 := by
  apply Nat.zero_of_testBit_eq_false
  intro i
  rw [Nat.testBit_and]
  by_cases hi : i < 3
  · rw [mask_low_bits i hi, Bool.and_false]
  · have hr : Nat.testBit r i = false := by
      apply Nat.testBit_lt_two_pow
      exact lt_of_lt_of_le h
        (le_trans (by norm_num : (8 : Nat) ≤ 2 ^ 3)
          (Nat.pow_le_pow_right (by omega) (by omega)))
    rw [hr, Bool.false_and]

theorem role_op_keeps_lt8 (b : Authority) (clock : Int) (op : RoleOp)
    (h8 : b.roles < 8) (harg : op.arg ≤ U64_MAX) :
    (op.apply b clock).roles < 8 := by
  cases op with
  | grant g =>
    unfold RoleOp.apply Authority.grant_roles
    cases hv : Authority.validate_roles g with
    | error e =>
      simp only [hv]
      exact h8
    | ok u =>
      cases u
      simp only [hv]
      have hg8 : g < 8 :=
        roles_lt8_of_valid g harg ((validate_roles_ok_iff g).mp hv)
      have := Nat.or_lt_two_pow
        (show b.roles < 2 ^ 3 from h8) (show g < 2 ^ 3 from hg8)
      exact this
  | revoke g =>
    unfold RoleOp.apply Authority.revoke_roles
    exact lt_of_le_of_lt Nat.and_le_left h8
  | set g =>
    unfold RoleOp.apply Authority.set_roles
    cases hv : Authority.validate_roles g with
    | error e =>
      simp only [hv]
      exact h8
    | ok u =>
      cases u
      simp only [hv]
      exact roles_lt8_of_valid g harg ((validate_roles_ok_iff g).mp hv)
  | clear =>
    unfold RoleOp.apply Authority.clear_roles
    exact Nat.zero_lt_succ 7

/-- C5: starting from any Authority whose roles bitmask passed validation,
any finite sequence of grant/revoke/set/clear calls (failed calls leave the
account unchanged) keeps every bit of the roles bitmask inside the known set
of ADMIN, MAINTAINER and OBSERVER: the result is below 8 and still passes
`validate_roles`. -/
theorem C5_roles_stay_known (a : Authority) (clock : Int) (ops : List RoleOp)
    (h64 : a.roles ≤ U64_MAX)
    (hv : Authority.validate_roles a.roles = .ok ())
    (hops : ∀ op ∈ ops, op.arg ≤ U64_MAX) :
    (RoleOp.apply_all a clock ops).roles < 8 ∧
      Authority.validate_roles (RoleOp.apply_all a clock ops).roles =
        .ok () := by
  have main : ∀ (l : List RoleOp) (b : Authority), b.roles < 8 →
      (∀ op ∈ l, op.arg ≤ U64_MAX) →
      (RoleOp.apply_all b clock l).roles < 8 := by
    intro l
    induction l with
    | nil =>
      intro b hb _
      exact hb
    | cons op rest ih =>
      intro b hb hargs
      unfold RoleOp.apply_all
      rw [List.foldl_cons]
      exact ih (op.apply b clock)
        (role_op_keeps_lt8 b clock op hb (hargs op (by simp)))
        (fun o ho => hargs o (by simp [ho]))
  have h8 : a.roles < 8 :=
    roles_lt8_of_valid a.roles h64 ((validate_roles_ok_iff a.roles).mp hv)
  refine ⟨main ops a h8 hops, ?_⟩
  exact (validate_roles_ok_iff _).mpr
    (valid_of_roles_lt8 _ (main ops a h8 hops))

/-- Witness for C5 on a concrete grant/revoke/set/clear/grant sequence. -/
theorem C5_witness :
    (RoleOp.apply_all authEx 11
        [.grant role_flags.MAINTAINER, .revoke role_flags.OBSERVER,
          .set role_flags.ADMIN, .clear,
          .grant role_flags.OBSERVER]).roles < 8 ∧
      Authority.validate_roles
          (RoleOp.apply_all authEx 11
            [.grant role_flags.MAINTAINER, .revoke role_flags.OBSERVER,
              .set role_flags.ADMIN, .clear,
              .grant role_flags.OBSERVER]).roles =
        .ok () :=
  C5_roles_stay_known authEx 11
    [.grant role_flags.MAINTAINER, .revoke role_flags.OBSERVER,
      .set role_flags.ADMIN, .clear, .grant role_flags.OBSERVER]
    (by decide) rfl (by decide)

-- ===========================================================================
-- C10
-- ===========================================================================

/-- A successful `Authority::init` establishes the scope invariant: a global
entry stores the default (zero) resource scope. -/
theorem init_ok_scope (a0 a1 : Authority) (auth roles : Nat) (g : Bool)
    (rs bump : Nat) (clock : Int)
    (h : a0.init auth roles g rs bump clock = (a1, .ok ())) :
    a1.is_global = true → a1.resource_scope = 0 := by
  unfold Authority.init at h
  cases hv : Authority.validate_roles roles with
  | error e =>
    rw [hv] at h
    injection h with h1 h2
    cases h2
  | ok u =>
    cases u
    rw [hv] at h
    dsimp only at h
    injection h with h1 h2
    rw [← h1]
    intro hg
    simp only at hg
    simp [hg]

/-- Every mutating `Authority` call preserves the scope invariant. -/
theorem auth_op_keeps_scope (b : Authority) (clock : Int) (op : AuthOp)
    (hb : b.is_global = true → b.resource_scope = 0) :
    (op.apply b clock).is_global = true →
      (op.apply b clock).resource_scope = 0 := by
  cases op with
  | scope g rs =>
    unfold AuthOp.apply Authority.set_scope
    intro hg
    simp only at hg
    simp [hg]
  | role rop =>
    cases rop with
    | grant g =>
      unfold AuthOp.apply RoleOp.apply Authority.grant_roles
      cases hv : Authority.validate_roles g with
      | error e =>
        simp only [hv]
        exact hb
      | ok u =>
        cases u
        simp only [hv]
        exact hb
    | revoke g =>
      unfold AuthOp.apply RoleOp.apply Authority.revoke_roles
      exact hb
    | set g =>
      unfold AuthOp.apply RoleOp.apply Authority.set_roles
      cases hv : Authority.validate_roles g with
      | error e =>
        simp only [hv]
        exact hb
      | ok u =>
        cases u
        simp only [hv]
        exact hb
    | clear =>
      unfold AuthOp.apply RoleOp.apply Authority.clear_roles
      exact hb

/-- C10: every Authority state reachable through a successful `init` followed
by any sequence of grant/revoke/set/clear/set_scope calls satisfies the scope
invariant — if the entry is global, its stored resource scope is the all-zero
default key. -/
theorem C10_global_scope_invariant (a0 a1 : Authority) (auth roles : Nat)
    (g : Bool) (rs bump : Nat) (clock clock2 : Int) (ops : List AuthOp)
    (hinit : a0.init auth roles g rs bump clock = (a1, .ok ())) :
    (AuthOp.apply_all a1 clock2 ops).is_global = true →
      (AuthOp.apply_all a1 clock2 ops).resource_scope = 0 := by
  have main : ∀ (l : List AuthOp) (b : Authority),
      (b.is_global = true → b.resource_scope = 0) →
      (AuthOp.apply_all b clock2 l).is_global = true →
        (AuthOp.apply_all b clock2 l).resource_scope = 0 := by
    intro l
    induction l with
    | nil =>
      intro b hb
      exact hb
    | cons op rest ih =>
      intro b hb
      unfold AuthOp.apply_all
      rw [List.foldl_cons]
      exact ih (op.apply b clock2) (auth_op_keeps_scope b clock2 op hb)
  exact main ops a1
    (init_ok_scope a0 a1 auth roles g rs bump clock hinit)

/-- Witness for C10: a concrete global init followed by scope flips and role
changes ends global with the default scope. -/
theorem C10_witness :
    (AuthOp.apply_all
        (authEx.init 7 role_flags.OBSERVER true 10 0 1).1 2
        [.scope false 5, .role (.grant role_flags.ADMIN),
          .scope true 9]).resource_scope = 0 :=
  C10_global_scope_invariant authEx
    (authEx.init 7 role_flags.OBSERVER true 10 0 1).1 7 role_flags.OBSERVER
    true 10 0 1 2
    [.scope false 5, .role (.grant role_flags.ADMIN), .scope true 9]
    rfl rfl

end Unit09
